import Mathlib

/-!
Shallow embedding of the openlimits exchange-abstraction layer (Nash and
Coinbase adapters) and proofs about its pagination, translation and
normalization functions.

Conventions of the embedding:
* Rust `u64` values are `Nat`; Rust `i64` is `Int` with the conversion
  `i64.try_from` made explicit (`i64_try_from`).
* The arbitrary-precision decimal type (`rust_decimal::Decimal`, reached
  from native values by exact lexical parsing) is modelled as `Rat`;
  the to-string/from-str round trip the source performs on native decimal
  values is the identity on the value and is elided.
* Fallible Rust functions returning `Result<T, OpenLimitsError>` become
  `Except OpenLimitsError T`; functions that can panic (`unimplemented!`,
  `panic!`, `.expect(..)`) return `Outcome T`, whose `panicked` constructor
  records the crash.
* Error / panic message strings follow the source; messages containing an
  apostrophe in the source are rendered without it.
-/

namespace OpenLimits

/-- Decimal values; the source uses an exact arbitrary-precision decimal type. -/
abbrev Decimal := Rat

/-- Error type of the library (`OpenLimitsError`), restricted to the variants
the embedded code constructs. -/
inductive OpenLimitsError where
  | InvalidParameter (msg : String)
  | MissingImplementation (msg : String)
  | NashProtocolError (msg : String)
  deriving DecidableEq, Repr

/-- `Result<T>` of the source: `Result<T, OpenLimitsError>`. -/
abbrev Result (α : Type) := Except OpenLimitsError α

/-- Outcome of running a piece of code that may also panic (Rust
`unimplemented!` / `panic!` / `.expect`), on top of returning a typed error. -/
inductive Outcome (α : Type) where
  | ok (value : α)
  | err (error : OpenLimitsError)
  | panicked (msg : String)
  deriving DecidableEq, Repr

/-- A UTC datetime, identified by its millisecond timestamp. -/
structure UtcDateTime where
  millis : Nat
  deriving DecidableEq, Repr

/-- `timestamp_to_utc_datetime` of the shared module: interpret a `u64`
millisecond timestamp as a UTC datetime. -/
def timestamp_to_utc_datetime (t : Nat) : UtcDateTime := { millis := t }

/-- `nash_protocol::types::DateTimeRange`. -/
structure DateTimeRange where
  start : UtcDateTime
  stop : UtcDateTime
  deriving DecidableEq, Repr

/-- Domain `Paginator` (the fields the Nash adapter reads): opaque cursor,
`u64` limit, and `u64` millisecond start/end timestamps. -/
structure Paginator where
  before : Option String
  limit : Option Nat
  start_time : Option Nat
  end_time : Option Nat
  deriving DecidableEq, Repr

/-- Largest value representable in Rust `i64`. -/
def i64max : Nat := 2 ^ 63 - 1

/-- `i64::try_from` on a `u64` value: succeeds exactly when the value fits. -/
def i64_try_from (v : Nat) : Option Int :=
  if v ≤ i64max then some (Int.ofNat v) else none

/-- The limit component of `try_split_paginator`: convert the optional `u64`
limit to `i64`, an overflow becoming an `InvalidParameter` error. -/
def split_limit : Option Nat → Result (Option Int)
  | some v =>
    match i64_try_from v with
    | some l => Except.ok (some l)
    | none =>
      Except.error (OpenLimitsError.InvalidParameter
        ("Could not convert paginator limit to i64"))
  | none => Except.ok none

/-- The range component of `try_split_paginator`: a `DateTimeRange` when both
`start_time` and `end_time` are present, `none` otherwise. -/
def paginator_range (paginator : Paginator) : Option DateTimeRange :=
  if h : paginator.start_time.isSome ∧ paginator.end_time.isSome then
    some { start := timestamp_to_utc_datetime (paginator.start_time.get h.1),
           stop := timestamp_to_utc_datetime (paginator.end_time.get h.2) }
  else none

/-- `try_split_paginator` of `exchange/nash/utils.rs`: split a domain
`Paginator` into the native `(before, limit, range)` triple. -/
def try_split_paginator (paginator : Option Paginator) :
    Result (Option String × Option Int × Option DateTimeRange) :=
  match paginator with
  | some paginator =>
    match split_limit paginator.limit with
    | Except.error e => Except.error e
    | Except.ok limit =>
      Except.ok (paginator.before, limit, paginator_range paginator)
  | none => Except.ok (none, none, none)

theorem split_limit_of_fits (o : Option Nat) (h : ∀ v, o = some v → v ≤ i64max) :
    split_limit o = Except.ok (o.map Int.ofNat) := by
  cases o with
  | none => rfl
  | some v =>
    have hv := h v rfl
    simp [split_limit, i64_try_from, hv]

theorem paginator_range_of_both (p : Paginator)
    (hs : p.start_time.isSome) (he : p.end_time.isSome) :
    ∃ r, paginator_range p = some r := by
  exact ⟨_, dif_pos ⟨hs, he⟩⟩

theorem paginator_range_of_partial (p : Paginator)
    (h : p.start_time.isSome ≠ p.end_time.isSome) :
    paginator_range p = none := by
  rw [paginator_range, dif_neg]
  rintro ⟨hs, he⟩
  exact h (hs.trans he.symm)

/-- Claim C1 counterexample: a paginator carrying only a start time (no end
time) is not rejected by `try_split_paginator`; the translation succeeds and
silently returns no time range. -/
theorem c1_counterexample :
    try_split_paginator
      (some { before := none, limit := none, start_time := some 1, end_time := none }) =
      Except.ok (none, none, none) := rfl

/-- Claim C1 (amended): a paginator with exactly one of start/end time present
whose limit (if any) fits in `i64` is not rejected: `try_split_paginator`
returns success with the time range silently absent. -/
theorem c1_partial_time_window_silently_dropped (p : Paginator)
    (h : p.start_time.isSome ≠ p.end_time.isSome)
    (hl : ∀ v, p.limit = some v → v ≤ i64max) :
    try_split_paginator (some p) =
      Except.ok (p.before, p.limit.map Int.ofNat, none) := by
  rw [try_split_paginator, split_limit_of_fits p.limit hl,
    paginator_range_of_partial p h]

/-- Claim C1 witness: the amended statement at a concrete paginator with only
a start time. -/
theorem c1_witness :
    try_split_paginator
      (some { before := some "cur", limit := some 5, start_time := some 7, end_time := none }) =
      Except.ok (some "cur", (some 5 : Option Nat).map Int.ofNat, none) :=
  c1_partial_time_window_silently_dropped _ (by decide)
    (by intro v hv; cases hv; decide)

/-- Claim C7: with both time bounds present and a limit that fits in `i64`,
`try_split_paginator` returns the cursor string `before` unchanged and a limit
numerically equal to the input limit. -/
theorem c7_cursor_and_limit_preserved (p : Paginator)
    (hs : p.start_time.isSome) (he : p.end_time.isSome)
    (hl : ∀ v, p.limit = some v → v ≤ i64max) :
    ∃ r, try_split_paginator (some p) =
      Except.ok (p.before, p.limit.map Int.ofNat, some r) := by
  obtain ⟨r, hr⟩ := paginator_range_of_both p hs he
  exact ⟨r, by rw [try_split_paginator, split_limit_of_fits p.limit hl, hr]⟩

/-- Claim C7 witness: concrete paginator with both bounds and limit 10. -/
theorem c7_witness :
    ∃ r, try_split_paginator
      (some { before := some "cursor", limit := some 10, start_time := some 3, end_time := some 9 }) =
      Except.ok (some "cursor", (some 10 : Option Nat).map Int.ofNat, some r) :=
  c7_cursor_and_limit_preserved _ rfl rfl (by intro v hv; cases hv; decide)

/-- Claim C8: a paginator limit that does not fit in `i64` makes
`try_split_paginator` return an `InvalidParameter` error; the limit is never
truncated. -/
theorem c8_limit_overflow_is_invalid_parameter (p : Paginator) (v : Nat)
    (hv : p.limit = some v) (hbig : i64max < v) :
    try_split_paginator (some p) =
      Except.error (OpenLimitsError.InvalidParameter
        ("Could not convert paginator limit to i64")) := by
  rw [try_split_paginator, hv]
  simp [split_limit, i64_try_from, Nat.not_le.mpr hbig]

/-- Claim C8 witness: the limit `2 ^ 63` (one past `i64::MAX`) is rejected. -/
theorem c8_witness :
    try_split_paginator
      (some { before := none, limit := some (2 ^ 63), start_time := none, end_time := none }) =
      Except.error (OpenLimitsError.InvalidParameter
        ("Could not convert paginator limit to i64")) :=
  c8_limit_overflow_is_invalid_parameter _ (2 ^ 63) rfl (by decide)

/-! ### Domain and Nash-native enums, and their conversions -/

/-- Modelled from the spec: the domain `Side` enum (`Buy`/`Sell`); its
declaration lives outside `src/`, the spec lists the two sides. -/
inductive Side where
  | Buy
  | Sell
  deriving DecidableEq, Repr

/-- Modelled from the spec: the domain `Liquidity` role (`Maker`/`Taker`). -/
inductive Liquidity where
  | Maker
  | Taker
  deriving DecidableEq, Repr

/-- Modelled from the spec: the domain `OrderStatus` enum. The spec lists
`Open/Filled/Canceled/Pending/…`; the conversion in `src/` matches the four
named variants and has a catch-all, so further variants exist — `Expired` and
`Rejected` stand in for them here. -/
inductive OrderStatus where
  | Filled
  | Open
  | Canceled
  | Pending
  | Expired
  | Rejected
  deriving DecidableEq, Repr

/-- The domain `OrderType` enum; the `TryFrom` conversion in `src/` matches
exactly `Limit`, `Market`, `StopLimit`, `StopMarket` and `Unknown` with no
catch-all, so these are all its variants. -/
inductive OrderType where
  | Limit
  | Market
  | StopLimit
  | StopMarket
  | Unknown
  deriving DecidableEq, Repr

namespace NashProtocol

/-- `nash_protocol::types::OrderStatus`. -/
inductive OrderStatus where
  | Filled
  | Open
  | Canceled
  | Pending
  deriving DecidableEq, Repr

/-- `nash_protocol::types::OrderType`. -/
inductive OrderType where
  | Limit
  | Market
  | StopLimit
  | StopMarket
  deriving DecidableEq, Repr

/-- `nash_protocol::types::BuyOrSell`. -/
inductive BuyOrSell where
  | Buy
  | Sell
  deriving DecidableEq, Repr

end NashProtocol

/-- `impl From<nash_protocol::types::OrderStatus> for OrderStatus`. -/
def order_status_from_nash : NashProtocol.OrderStatus → OrderStatus
  | NashProtocol.OrderStatus.Filled => OrderStatus.Filled
  | NashProtocol.OrderStatus.Open => OrderStatus.Open
  | NashProtocol.OrderStatus.Canceled => OrderStatus.Canceled
  | NashProtocol.OrderStatus.Pending => OrderStatus.Pending

/-- `impl TryFrom<OrderStatus> for nash_protocol::types::OrderStatus`. -/
def order_status_try_into_nash : OrderStatus → Result NashProtocol.OrderStatus
  | OrderStatus.Filled => Except.ok NashProtocol.OrderStatus.Filled
  | OrderStatus.Open => Except.ok NashProtocol.OrderStatus.Open
  | OrderStatus.Canceled => Except.ok NashProtocol.OrderStatus.Canceled
  | OrderStatus.Pending => Except.ok NashProtocol.OrderStatus.Pending
  | _ =>
    Except.error (OpenLimitsError.InvalidParameter
      ("Had invalid order status for Nash"))

/-- `impl From<nash_protocol::types::OrderType> for OrderType`. -/
def order_type_from_nash : NashProtocol.OrderType → OrderType
  | NashProtocol.OrderType.Limit => OrderType.Limit
  | NashProtocol.OrderType.Market => OrderType.Market
  | NashProtocol.OrderType.StopLimit => OrderType.StopLimit
  | NashProtocol.OrderType.StopMarket => OrderType.StopMarket

/-- `impl TryFrom<OrderType> for nash_protocol::types::OrderType`. -/
def order_type_try_into_nash : OrderType → Result NashProtocol.OrderType
  | OrderType.Limit => Except.ok NashProtocol.OrderType.Limit
  | OrderType.Market => Except.ok NashProtocol.OrderType.Market
  | OrderType.StopLimit => Except.ok NashProtocol.OrderType.StopLimit
  | OrderType.StopMarket => Except.ok NashProtocol.OrderType.StopMarket
  | OrderType.Unknown =>
    Except.error (OpenLimitsError.InvalidParameter
      ("Had invalid order type for Nash"))

/-- `impl From<Side> for BuyOrSell`. -/
def buy_or_sell_of_side : Side → NashProtocol.BuyOrSell
  | Side.Buy => NashProtocol.BuyOrSell.Buy
  | Side.Sell => NashProtocol.BuyOrSell.Sell

/-- Claim C9: for the Nash-supported domain order statuses
(Filled/Open/Canceled/Pending) and order types
(Limit/Market/StopLimit/StopMarket), converting domain → Nash-native → domain
yields the original value. -/
theorem c9_status_and_type_roundtrip :
    (∀ s : OrderStatus,
      s = OrderStatus.Filled ∨ s = OrderStatus.Open ∨
      s = OrderStatus.Canceled ∨ s = OrderStatus.Pending →
      ∃ n, order_status_try_into_nash s = Except.ok n ∧
        order_status_from_nash n = s) ∧
    (∀ t : OrderType,
      t = OrderType.Limit ∨ t = OrderType.Market ∨
      t = OrderType.StopLimit ∨ t = OrderType.StopMarket →
      ∃ n, order_type_try_into_nash t = Except.ok n ∧
        order_type_from_nash n = t) := by
  constructor
  · rintro s (rfl | rfl | rfl | rfl) <;> exact ⟨_, rfl, rfl⟩
  · rintro t (rfl | rfl | rfl | rfl) <;> exact ⟨_, rfl, rfl⟩

/-- Claim C9 witness: the round trip at `Filled` and at `Limit`. -/
theorem c9_witness :
    (∃ n, order_status_try_into_nash OrderStatus.Filled = Except.ok n ∧
      order_status_from_nash n = OrderStatus.Filled) ∧
    (∃ n, order_type_try_into_nash OrderType.Limit = Except.ok n ∧
      order_type_from_nash n = OrderType.Limit) :=
  ⟨c9_status_and_type_roundtrip.1 OrderStatus.Filled (Or.inl rfl),
   c9_status_and_type_roundtrip.2 OrderType.Limit (Or.inl rfl)⟩

/-! ### Ticker normalization -/

/-- `nash_protocol::protocol::get_ticker::TickerResponse`, restricted to the
fields the conversion reads. Native decimal values are carried exactly. -/
structure TickerResponse where
  best_ask_price : Option Decimal
  best_bid_price : Option Decimal
  high_price_24h : Option Decimal
  low_price_24h : Option Decimal
  deriving DecidableEq, Repr

/-- Domain `Ticker`. -/
structure Ticker where
  price : Option Decimal
  price_24h : Option Decimal
  deriving DecidableEq, Repr

/-- `impl From<get_ticker::TickerResponse> for Ticker`: mid price from best
ask and best bid when both are present, and a 24h mid price from the 24h high
and low when both are present. -/
def ticker_of_response (resp : TickerResponse) : Ticker :=
  let price :=
    if h : resp.best_ask_price.isSome ∧ resp.best_bid_price.isSome then
      let ask := resp.best_ask_price.get h.1
      let bid := resp.best_bid_price.get h.2
      some ((ask + bid) / (2 : Decimal))
    else none
  let price_24h :=
    if h : resp.high_price_24h.isSome ∧ resp.low_price_24h.isSome then
      let day_high := resp.high_price_24h.get h.1
      let day_low := resp.low_price_24h.get h.2
      some ((day_high + day_low) / (2 : Decimal))
    else none
  { price := price, price_24h := price_24h }

/-- Claim C2: when both best bid and best ask are present the normalized
`Ticker.price` is their exact decimal mean; when either is absent the price is
absent. -/
theorem c2_ticker_price_is_mid (resp : TickerResponse) :
    (∀ bid ask, resp.best_bid_price = some bid → resp.best_ask_price = some ask →
      (ticker_of_response resp).price = some ((bid + ask) / 2)) ∧
    (resp.best_bid_price = none ∨ resp.best_ask_price = none →
      (ticker_of_response resp).price = none) := by
  constructor
  · intro bid ask hbid hask
    simp [ticker_of_response, hbid, hask]
    ring
  · rintro (h | h) <;> simp [ticker_of_response, h]

/-- Claim C2 witness: bid 10.00 and ask 10.02 give price 10.01. -/
theorem c2_witness :
    (ticker_of_response
      { best_ask_price := some (501 / 50), best_bid_price := some 10,
        high_price_24h := none, low_price_24h := none }).price =
      some (1001 / 100) := by
  have h := (c2_ticker_price_is_mid
    { best_ask_price := some (501 / 50), best_bid_price := some 10,
      high_price_24h := none, low_price_24h := none }).1 10 (501 / 50) rfl rfl
  rw [h]
  norm_num

/-! ### Account balances -/

/-- Domain `Balance`. -/
structure Balance where
  asset : String
  total : Decimal
  free : Decimal
  deriving DecidableEq, Repr

/-- `list_account_balances::ListAccountBalancesResponse`: two maps from asset
to exact decimal amount, modelled as association lists. -/
structure ListAccountBalancesResponse where
  state_channel : List (String × Decimal)
  in_orders : List (String × Decimal)
  deriving DecidableEq, Repr

/-- The balance-synthesis loop of `Nash::get_account_balances`: for each asset
of the state-channel map, look up its in-orders amount (a missing entry is a
panic in the source, modelled as `none`) and emit a `Balance` with
`total = free + in_orders`. -/
def balances_of_response :
    List (String × Decimal) → List (String × Decimal) → Option (List Balance)
  | [], _ => some []
  | (asset, free) :: rest, in_orders_map =>
    match in_orders_map.lookup asset, balances_of_response rest in_orders_map with
    | some in_orders, some balances =>
      some ({ asset := asset, total := free + in_orders, free := free } :: balances)
    | _, _ => none

/-- `Nash::get_account_balances` after a successful transport call. -/
def get_account_balances (resp : ListAccountBalancesResponse) :
    Option (List Balance) :=
  balances_of_response resp.state_channel resp.in_orders

theorem balances_of_response_spec (sc io : List (String × Decimal))
    (bs : List Balance) (h : balances_of_response sc io = some bs) :
    ∀ b ∈ bs, ∃ v, io.lookup b.asset = some v ∧
      (b.asset, b.free) ∈ sc ∧ b.total = b.free + v := by
  induction sc generalizing bs with
  | nil =>
    cases h
    intro b hb
    cases hb
  | cons hd rest ih =>
    obtain ⟨asset, free⟩ := hd
    rw [balances_of_response] at h
    cases hio : io.lookup asset with
    | none => rw [hio] at h; cases h
    | some v =>
      rw [hio] at h
      cases hrest : balances_of_response rest io with
      | none => rw [hrest] at h; cases h
      | some balances =>
        rw [hrest] at h
        cases h
        intro b hb
        cases hb with
        | head => exact ⟨v, hio, List.mem_cons_self _ _, rfl⟩
        | tail _ hb =>
          obtain ⟨w, hw, hmem, htot⟩ := ih balances hrest b hb
          exact ⟨w, hw, List.mem_cons_of_mem _ hmem, htot⟩

/-- Claim C3: every `Balance` produced by `get_account_balances` satisfies
`total = free + in_orders`, where `free` is the state-channel amount of the
asset and `in_orders` its reserved-in-orders amount. -/
theorem c3_balance_total_eq_free_plus_in_orders
    (resp : ListAccountBalancesResponse) (bs : List Balance)
    (h : get_account_balances resp = some bs) :
    ∀ b ∈ bs, ∃ in_orders, resp.in_orders.lookup b.asset = some in_orders ∧
      (b.asset, b.free) ∈ resp.state_channel ∧
      b.total = b.free + in_orders :=
  balances_of_response_spec resp.state_channel resp.in_orders bs h

/-- Claim C3 witness: a one-asset response with free 3/2 and in-orders 1/2
yields a balance with total 2. -/
theorem c3_witness :
    ∃ in_orders,
      ([(("btc" : String), (1 / 2 : Decimal))]).lookup "btc" = some in_orders ∧
      (("btc" : String), (3 / 2 : Decimal)) ∈ [(("btc" : String), (3 / 2 : Decimal))] ∧
      (2 : Decimal) = 3 / 2 + in_orders :=
  c3_balance_total_eq_free_plus_in_orders
    { state_channel := [("btc", 3 / 2)], in_orders := [("btc", 1 / 2)] }
    [{ asset := "btc", total := 2, free := 3 / 2 }]
    (by norm_num [get_account_balances, balances_of_response, List.lookup])
    { asset := "btc", total := 2, free := 3 / 2 }
    (List.mem_singleton.mpr rfl)

/-! ### Orders and the market-buy operation -/

/-- Domain `Trade` (fields as populated by the Nash adapter). -/
structure Trade where
  id : String
  created_at : Nat
  fees : Option Decimal
  liquidity : Option Liquidity
  market_pair : String
  buyer_order_id : Option String
  seller_order_id : Option String
  price : Decimal
  qty : Decimal
  side : Side
  deriving DecidableEq, Repr

/-- Domain `Order` (fields as populated by the Nash adapter). -/
structure Order where
  id : String
  market_pair : String
  client_order_id : Option String
  created_at : Option Nat
  order_type : OrderType
  side : Side
  status : OrderStatus
  size : Decimal
  price : Option Decimal
  remaining : Option Decimal
  trades : List Trade
  deriving DecidableEq, Repr

/-- Domain `OpenMarketOrderRequest`. -/
structure OpenMarketOrderRequest where
  market_pair : String
  size : Decimal
  deriving DecidableEq, Repr

/-- `Nash::market_buy`: the body is a single `unimplemented!` invocation, so
every call panics with the fixed message below (the request is ignored and no
transport call happens). -/
def market_buy (_ : OpenMarketOrderRequest) : Outcome Order :=
  Outcome.panicked
    ("not implemented: Market buys are not supported by nash. A market buy can be simulated by placing a market sell in the inverse market. Market buy in btc_usdc should be translated to a market sell in usdc_btc.")

/-- Claim C4 counterexample: at a concrete request, `market_buy` panics; it
does not return a typed error. -/
theorem c4_counterexample :
    (∃ m, market_buy { market_pair := "btc_usdc", size := 1 } = Outcome.panicked m) ∧
    ∀ e, market_buy { market_pair := "btc_usdc", size := 1 } ≠ Outcome.err e :=
  ⟨⟨_, rfl⟩, fun _ h => Outcome.noConfusion h⟩

/-- Claim C4 (amended): `market_buy` fails deterministically for every
request, independent of network state, and never emulates the buy via an
inverse-market sell (it never succeeds) — but the failure is a panic
(`unimplemented!`), i.e. a crash, not a typed unsupported-operation error. -/
theorem c4_market_buy_always_panics (req : OpenMarketOrderRequest) :
    (∃ m, market_buy req = Outcome.panicked m) ∧
    (∀ e, market_buy req ≠ Outcome.err e) ∧
    (∀ o, market_buy req ≠ Outcome.ok o) :=
  ⟨⟨_, rfl⟩, fun _ h => Outcome.noConfusion h, fun _ h => Outcome.noConfusion h⟩

/-- Claim C4 witness: the amended statement at a concrete request. -/
theorem c4_witness :
    (∃ m, market_buy { market_pair := "eth_usdc", size := 2 } = Outcome.panicked m) ∧
    (∀ e, market_buy { market_pair := "eth_usdc", size := 2 } ≠ Outcome.err e) ∧
    (∀ o, market_buy { market_pair := "eth_usdc", size := 2 } ≠ Outcome.ok o) :=
  c4_market_buy_always_panics { market_pair := "eth_usdc", size := 2 }

/-! ### WebSocket subscription mapping -/

/-- A start/end pair of `u64` millisecond timestamps (the range filter of the
domain `AccountOrders` subscription; the source field `end` is a reserved word
here, hence the escaped name). -/
structure TimestampRange where
  start : Nat
  «end» : Nat
  deriving DecidableEq, Repr

/-- Domain `AccountOrders` subscription filter. -/
structure AccountOrders where
  market : Option String
  order_type : Option (List OrderType)
  range : Option TimestampRange
  buy_or_sell : Option Side
  status : Option (List OrderStatus)
  deriving DecidableEq, Repr

/-- Modelled from the spec: the domain `Subscription` enum is declared outside
`src/`; the spec lists its variants as OrderBookUpdates, Trades,
AccountOrders, AccountTrades, AccountBalance, Heartbeat, Status. -/
inductive Subscription where
  | OrderBookUpdates (market : String)
  | Trades (market : String)
  | AccountOrders (filter : AccountOrders)
  | AccountTrades (market_name : String)
  | AccountBalance (symbol : String)
  | Heartbeat
  | Status
  deriving DecidableEq, Repr

/-- `subscriptions::updated_account_orders::SubscribeAccountOrders`. -/
structure SubscribeAccountOrders where
  market : Option String
  order_type : Option (List NashProtocol.OrderType)
  range : Option DateTimeRange
  buy_or_sell : Option NashProtocol.BuyOrSell
  status : Option (List NashProtocol.OrderStatus)
  deriving DecidableEq, Repr

/-- `impl From<AccountOrders> for SubscribeAccountOrders`: order types and
statuses that fail the domain-to-native conversion are filtered out
(`try_into().ok()` + keep the `Some`s). -/
def subscribe_account_orders_of (account_orders : AccountOrders) :
    SubscribeAccountOrders :=
  { market := account_orders.market
    order_type := account_orders.order_type.map
      (fun x => x.filterMap (fun t => (order_type_try_into_nash t).toOption))
    range := account_orders.range.map
      (fun range =>
        { start := timestamp_to_utc_datetime range.start,
          stop := timestamp_to_utc_datetime range.«end» })
    buy_or_sell := account_orders.buy_or_sell.map buy_or_sell_of_side
    status := account_orders.status.map
      (fun x => x.filterMap (fun s => (order_status_try_into_nash s).toOption)) }

/-- `nash_protocol::protocol::subscriptions::SubscriptionRequest`, restricted
to the payloads the mapping constructs. -/
inductive SubscriptionRequest where
  | Orderbook (market : String)
  | Trades (market : String)
  | AccountOrders (sub : SubscribeAccountOrders)
  | AccountTrades (market_name : String)
  | AccountBalances (symbol : Option String)
  deriving DecidableEq, Repr

/-- `impl From<Subscription> for SubscriptionRequest` (Nash): the five
supported variants map to native subscribe requests; every other variant hits
`panic!("Not supported Subscription")`. -/
def nash_subscription_request : Subscription → Outcome SubscriptionRequest
  | Subscription.OrderBookUpdates market =>
    Outcome.ok (SubscriptionRequest.Orderbook market)
  | Subscription.Trades market =>
    Outcome.ok (SubscriptionRequest.Trades market)
  | Subscription.AccountOrders account_orders =>
    Outcome.ok (SubscriptionRequest.AccountOrders
      (subscribe_account_orders_of account_orders))
  | Subscription.AccountTrades market_name =>
    Outcome.ok (SubscriptionRequest.AccountTrades market_name)
  | Subscription.AccountBalance symbol =>
    Outcome.ok (SubscriptionRequest.AccountBalances (some symbol))
  | _ => Outcome.panicked ("Not supported Subscription")

/-- `CoinbaseSubscription` of the Coinbase websocket model. -/
inductive CoinbaseSubscription where
  | Heartbeat (product : String)
  | Status
  | Level2 (product : String)
  deriving DecidableEq, Repr

/-- `impl From<Subscription> for CoinbaseSubscription`: only order-book
updates are mapped; every other variant hits `unimplemented!()`. -/
def coinbase_subscription_of : Subscription → Outcome CoinbaseSubscription
  | Subscription.OrderBookUpdates symbol =>
    Outcome.ok (CoinbaseSubscription.Level2 symbol)
  | _ => Outcome.panicked ("not implemented")

/-- The subscription variants with a native Nash mapping. -/
def nash_natively_supported : Subscription → Bool
  | Subscription.OrderBookUpdates _ => true
  | Subscription.Trades _ => true
  | Subscription.AccountOrders _ => true
  | Subscription.AccountTrades _ => true
  | Subscription.AccountBalance _ => true
  | _ => false

/-- The subscription variants with a native Coinbase mapping. -/
def coinbase_natively_supported : Subscription → Bool
  | Subscription.OrderBookUpdates _ => true
  | _ => false

/-- Claim C5 counterexample: at the concrete unsupported variant `Heartbeat`,
both the Nash and the Coinbase subscription mappings panic (an unrecoverable
crash); neither returns a typed error. -/
theorem c5_counterexample :
    nash_subscription_request Subscription.Heartbeat =
      Outcome.panicked ("Not supported Subscription") ∧
    coinbase_subscription_of Subscription.Heartbeat =
      Outcome.panicked ("not implemented") ∧
    (∀ e, nash_subscription_request Subscription.Heartbeat ≠ Outcome.err e) ∧
    (∀ e, coinbase_subscription_of Subscription.Heartbeat ≠ Outcome.err e) :=
  ⟨rfl, rfl, fun _ h => Outcome.noConfusion h, fun _ h => Outcome.noConfusion h⟩

/-- Claim C5 (amended): a domain subscription variant with no native mapping
fails fast at subscribe time and never silently subscribes to a default
stream — but the failure is a panic (the source's catch-all `panic!` /
`unimplemented!`), an unrecoverable crash rather than a typed error. -/
theorem c5_unsupported_subscription_panics (s : Subscription) :
    (nash_natively_supported s = false →
      (∃ m, nash_subscription_request s = Outcome.panicked m) ∧
      ∀ r, nash_subscription_request s ≠ Outcome.ok r) ∧
    (coinbase_natively_supported s = false →
      (∃ m, coinbase_subscription_of s = Outcome.panicked m) ∧
      ∀ r, coinbase_subscription_of s ≠ Outcome.ok r) := by
  cases s with
  | OrderBookUpdates market =>
    exact ⟨fun h => Bool.noConfusion h, fun h => Bool.noConfusion h⟩
  | Trades market =>
    exact ⟨fun h => Bool.noConfusion h,
      fun _ => ⟨⟨_, rfl⟩, fun _ h => Outcome.noConfusion h⟩⟩
  | AccountOrders filter =>
    exact ⟨fun h => Bool.noConfusion h,
      fun _ => ⟨⟨_, rfl⟩, fun _ h => Outcome.noConfusion h⟩⟩
  | AccountTrades market_name =>
    exact ⟨fun h => Bool.noConfusion h,
      fun _ => ⟨⟨_, rfl⟩, fun _ h => Outcome.noConfusion h⟩⟩
  | AccountBalance symbol =>
    exact ⟨fun h => Bool.noConfusion h,
      fun _ => ⟨⟨_, rfl⟩, fun _ h => Outcome.noConfusion h⟩⟩
  | Heartbeat =>
    exact ⟨fun _ => ⟨⟨_, rfl⟩, fun _ h => Outcome.noConfusion h⟩,
      fun _ => ⟨⟨_, rfl⟩, fun _ h => Outcome.noConfusion h⟩⟩
  | Status =>
    exact ⟨fun _ => ⟨⟨_, rfl⟩, fun _ h => Outcome.noConfusion h⟩,
      fun _ => ⟨⟨_, rfl⟩, fun _ h => Outcome.noConfusion h⟩⟩

/-- Claim C5 witness: the amended statement at the unsupported variant
`Status`. -/
theorem c5_witness :
    ((∃ m, nash_subscription_request Subscription.Status = Outcome.panicked m) ∧
      ∀ r, nash_subscription_request Subscription.Status ≠ Outcome.ok r) ∧
    ((∃ m, coinbase_subscription_of Subscription.Status = Outcome.panicked m) ∧
      ∀ r, coinbase_subscription_of Subscription.Status ≠ Outcome.ok r) :=
  ⟨(c5_unsupported_subscription_panics Subscription.Status).1 rfl,
   (c5_unsupported_subscription_panics Subscription.Status).2 rfl⟩

/-! ### Historic-rates (candle) request translation -/

/-- `nash_protocol::types::CandleInterval`. -/
inductive CandleInterval where
  | OneMinute
  | FiveMinute
  | FifteenMinute
  | ThirtyMinute
  | OneHour
  | SixHour
  | TwelveHour
  | OneDay
  deriving DecidableEq, Repr

/-- Modelled from the spec: the domain `Interval` enum is declared outside
`src/`. The conversion in `src/` names the eight Nash-supported intervals and
has a catch-all, so further variants exist; `ThreeMinutes`, `TwoHours`,
`FourHours`, `EightHours`, `ThreeDays`, `OneWeek` and `OneMonth` represent
them here. -/
inductive Interval where
  | OneMinute
  | ThreeMinutes
  | FiveMinutes
  | FifteenMinutes
  | ThirtyMinutes
  | OneHour
  | TwoHours
  | FourHours
  | SixHours
  | EightHours
  | TwelveHours
  | OneDay
  | ThreeDays
  | OneWeek
  | OneMonth
  deriving DecidableEq, Repr

/-- `impl TryFrom<Interval> for CandleInterval`: the eight supported intervals
map across; anything else is a `MissingImplementation` error. -/
def candle_interval_try_from : Interval → Result CandleInterval
  | Interval.OneMinute => Except.ok CandleInterval.OneMinute
  | Interval.FiveMinutes => Except.ok CandleInterval.FiveMinute
  | Interval.FifteenMinutes => Except.ok CandleInterval.FifteenMinute
  | Interval.ThirtyMinutes => Except.ok CandleInterval.ThirtyMinute
  | Interval.OneHour => Except.ok CandleInterval.OneHour
  | Interval.SixHours => Except.ok CandleInterval.SixHour
  | Interval.TwelveHours => Except.ok CandleInterval.TwelveHour
  | Interval.OneDay => Except.ok CandleInterval.OneDay
  | _ =>
    Except.error (OpenLimitsError.MissingImplementation ("Not supported interval"))

/-- Domain `GetHistoricRatesRequest`. -/
structure GetHistoricRatesRequest where
  market_pair : String
  paginator : Option Paginator
  interval : Interval
  deriving DecidableEq, Repr

/-- `nash_protocol::protocol::list_candles::ListCandlesRequest`. -/
structure ListCandlesRequest where
  market : String
  chronological : Option Bool
  before : Option String
  interval : Option CandleInterval
  limit : Option Int
  range : Option DateTimeRange
  deriving DecidableEq, Repr

/-- `impl TryFrom<&GetHistoricRatesRequest> for ListCandlesRequest`: paginator
errors are propagated with `?`, but the interval conversion is unwrapped with
`.expect(..)` — its typed error is discarded and turned into a panic. -/
def list_candles_request_of (req : GetHistoricRatesRequest) :
    Outcome ListCandlesRequest :=
  match try_split_paginator req.paginator with
  | Except.error e => Outcome.err e
  | Except.ok (before, limit, range) =>
    match candle_interval_try_from req.interval with
    | Except.ok interval =>
      Outcome.ok
        { market := req.market_pair, chronological := none, before := before,
          interval := some interval, limit := limit, range := range }
    | Except.error _ =>
      Outcome.panicked ("Could not convert Interval to CandleInterval.")

/-- Claim C6: at an unsupported interval the inner conversion produces the
typed `MissingImplementation` error, but the request translation unwraps it
with `.expect`, so the call panics instead of returning that error to the
caller. -/
theorem c6_unsupported_interval_panics_instead_of_error :
    candle_interval_try_from Interval.ThreeMinutes =
      Except.error (OpenLimitsError.MissingImplementation ("Not supported interval")) ∧
    list_candles_request_of
      { market_pair := "btc_usdc", paginator := none,
        interval := Interval.ThreeMinutes } =
      Outcome.panicked ("Could not convert Interval to CandleInterval.") :=
  ⟨rfl, rfl⟩

/-! ### Cancel-all-orders -/

/-- Domain `OrderCanceled`. -/
structure OrderCanceled where
  id : String
  deriving DecidableEq, Repr

/-- Domain `CancelAllOrdersRequest`. -/
structure CancelAllOrdersRequest where
  market_pair : Option String
  deriving DecidableEq, Repr

/-- `nash_protocol::protocol::cancel_all_orders::CancelAllOrders`. -/
structure CancelAllOrders where
  market : String
  deriving DecidableEq, Repr

/-- Errors of the transport layer (`nash_protocol::errors::ProtocolError`),
identified by their message. -/
abbrev ProtocolError := String

/-- `impl From<&CancelAllOrdersRequest> for CancelAllOrders`: the market pair
is a required parameter, unwrapped with `.expect(..)`. -/
def cancel_all_orders_request_of (req : CancelAllOrdersRequest) :
    Outcome CancelAllOrders :=
  match req.market_pair with
  | some market => Outcome.ok { market := market }
  | none => Outcome.panicked ("Market pair is a required param for Nash")

/-- The tail of `Nash::cancel_all_orders` after the transport call: a
transport error is propagated with `?`; any successful reply is discarded and
the empty vector is returned. -/
def cancel_all_orders_result {α : Type} (transport_result : Except ProtocolError α) :
    Result (List OrderCanceled) :=
  match transport_result with
  | Except.error e => Except.error (OpenLimitsError.NashProtocolError e)
  | Except.ok _ => Except.ok []

/-- `Nash::cancel_all_orders`, with the transport call abstracted as a
function from the native request to the transport reply. -/
def cancel_all_orders (req : CancelAllOrdersRequest) {α : Type}
    (transport : CancelAllOrders → Except ProtocolError α) :
    Outcome (List OrderCanceled) :=
  match cancel_all_orders_request_of req with
  | Outcome.ok native =>
    match cancel_all_orders_result (transport native) with
    | Except.ok v => Outcome.ok v
    | Except.error e => Outcome.err e
  | Outcome.err e => Outcome.err e
  | Outcome.panicked m => Outcome.panicked m

/-- Claim C10: whenever the transport call succeeds — whatever the reply value
is — `cancel_all_orders` returns the empty list of canceled orders; the ids of
canceled orders are never reported. -/
theorem c10_cancel_all_returns_empty (req : CancelAllOrdersRequest) {α : Type}
    (transport : CancelAllOrders → Except ProtocolError α)
    (native : CancelAllOrders)
    (hreq : cancel_all_orders_request_of req = Outcome.ok native)
    (r : α) (hok : transport native = Except.ok r) :
    cancel_all_orders req transport = Outcome.ok [] := by
  simp [cancel_all_orders, hreq, cancel_all_orders_result, hok]

/-- Claim C10 witness: a concrete request against a transport that accepts
everything returns the empty vector. -/
theorem c10_witness :
    cancel_all_orders { market_pair := some "btc_usdc" }
      (fun _ => (Except.ok () : Except ProtocolError Unit)) = Outcome.ok [] :=
  c10_cancel_all_returns_empty { market_pair := some "btc_usdc" }
    (fun _ => (Except.ok () : Except ProtocolError Unit))
    { market := "btc_usdc" } rfl () rfl

end OpenLimits
